import Mathlib

/-!
Verification development for the `archiver` crate (files `src/multi.rs` and
`src/single.rs`): an action-driven engine tracking the documents open in an
editing application.  The consumer loop of each engine is embedded as a step
function over an explicit state; background I/O workers are embedded as
functions from the outcome of their one blocking I/O operation to the list of
result actions they send back to the queue.  A step returning `none` models a
Rust panic (failed `unwrap`, failed `assert!`, out-of-bounds index).
-/

/-! ## String helpers

Rust string operations used by the source, embedded over `List Char` so that
every definition reduces in the kernel.  `strStartsWith` is Rust
`str::starts_with`, `splitOnChar` is `str::split(" ")` (the pattern is the
one-character string `" "`), `trimEndList` is `str::trim_end_matches`
(repeatedly removes the suffix), and `parseNatList` is `str::parse::<usize>`
restricted to plain digit strings (the source never parses signed or
plus-prefixed text). -/

def isPrefixList : List Char → List Char → Bool
  | [], _ => true
  | _ :: _, [] => false
  | a :: as, b :: bs => a == b && isPrefixList as bs

def strStartsWith (s pat : String) : Bool :=
  isPrefixList pat.data s.data

def splitOnChar (c : Char) : List Char → List (List Char)
  | [] => [[]]
  | d :: rest =>
    match splitOnChar c rest with
    | [] => [[d]]
    | cur :: more => if d == c then [] :: cur :: more else (d :: cur) :: more

def isSuffixList (pat s : List Char) : Bool :=
  isPrefixList pat.reverse s.reverse

def trimEndGo : Nat → List Char → List Char → List Char
  | 0, s, _ => s
  | Nat.succ n, s, pat =>
    if pat.isEmpty then s
    else if isSuffixList pat s then trimEndGo n (s.take (s.length - pat.length)) pat
    else s

def trimEndList (s pat : List Char) : List Char :=
  trimEndGo s.length s pat

def parseNatGo : List Char → Nat → Option Nat
  | [], acc => some acc
  | c :: rest, acc =>
    if c.isDigit then parseNatGo rest (acc * 10 + (c.toNat - 48)) else none

def parseNatList (cs : List Char) : Option Nat :=
  if cs.isEmpty then none else parseNatGo cs 0

/-! ## Data model (`multi.rs`) -/

/-- `OpenedFile` from `multi.rs`.  The `dt : Option<SystemTime>` field is
carried by the source but never read by the engine; wall-clock time is
modelled as `Unit`. -/
structure OpenedFile where
  name : String
  path : Option String
  content : Option String
  saved : Bool
  dt : Option Unit
  index : Nat
deriving DecidableEq

/-- `FinalState` from `multi.rs`. -/
structure FinalState where
  recent : List OpenedFile
  files : List OpenedFile
deriving DecidableEq

/-- `MultiArchiverAction` from `multi.rs`. -/
inductive MultiArchiverAction where
  | OpenRequest (path : String)
  | OpenRelativeRequest (relPath : String)
  | SetPrefix (optPath : Option String)
  | OpenSuccess (file : OpenedFile)
  | Add (file : OpenedFile)
  | OpenError (msg : String)
  | CloseRequest (ix : Nat) (force : Bool)
  | SaveRequest (optPath : Option String)
  | SaveSuccess (ix : Nat) (path : String)
  | SaveError (msg : String)
  | NewRequest
  | WindowCloseRequest
  | SetSaved (ix : Nat) (saved : Bool)
  | Select (optIx : Option Nat)
deriving DecidableEq

/-- One synchronous callback invocation of the multi engine's event sink
(the `on_*` `Callbacks` fields of `MultiArchiver`), with its payload. -/
inductive MultiNotif where
  | NNew (f : OpenedFile)
  | NAdded (f : OpenedFile)
  | NReopen (f : OpenedFile)
  | NOpened (f : OpenedFile)
  | NClosed (f : OpenedFile) (remaining : Nat)
  | NCloseConfirm (f : OpenedFile)
  | NSelected (f : Option OpenedFile)
  | NChanged (f : OpenedFile)
  | NPersisted (f : OpenedFile)
  | NError (msg : String)
  | NWindowClose
  | NSaveUnknownPath (name : String)
  | NNameChanged (ix : Nat) (newName : String)
deriving DecidableEq

/-- A background worker spawned by the consumer: `spawn_open_file` captures
the path and `files.len()` at spawn time, `spawn_save_file` captures the
target path, the file index and the buffer content pulled from the
`on_buffer_read_request` callback. -/
inductive SpawnedWorker where
  | openW (path : String) (nFiles : Nat)
  | saveW (path : String) (index : Nat) (content : String)
deriving DecidableEq

/-- The local mutable state captured by the `recv.attach` closure in
`MultiArchiver::new`: the registry `files`, the `recent_files` list, the
selection, the pending-window-close flag, the last closed file, the optional
path sandbox, plus the shared `final_state` snapshot. -/
structure MultiState where
  files : List OpenedFile
  recentFiles : List OpenedFile
  selected : Option Nat
  winCloseRequest : Bool
  lastClosedFile : Option OpenedFile
  sandbox : Option String
  finalState : FinalState
deriving DecidableEq

/-- Everything one consumer iteration produces: the new state, the event-sink
callbacks invoked (in order), the actions the consumer re-enqueued to itself
via `send` (in order), and the workers it spawned. -/
structure StepOut where
  state : MultiState
  notifs : List MultiNotif
  sent : List MultiArchiverAction
  spawns : List SpawnedWorker
deriving DecidableEq

/-- `MAX_FILE_SIZE` from `multi.rs`. -/
def MAX_FILE_SIZE : Nat := 5000000

/-- `format!("Untitled {}.{}", k, extension)`. -/
def untitledName (ext : String) (k : Nat) : String :=
  "Untitled " ++ Nat.repr k ++ "." ++ ext

/-- `f.name.split(" ").nth(1).unwrap().trim_end_matches(&format!(".{}", ext))
.parse::<usize>().unwrap()` — `none` models a panic of either `unwrap`. -/
def parseUntitled (ext : String) (name : String) : Option Nat :=
  match (splitOnChar ' ' name.data).get? 1 with
  | none => none
  | some piece => parseNatList (trimEndList piece ('.' :: ext.data))

/-- `remove_file` from `multi.rs`: decrement the `index` of every entry after
position `ix`, then remove and return the entry at `ix`.  (Rust's `usize`
decrement would abort on underflow; under the index invariant every entry past
`ix` has a positive index, so saturating `Nat` subtraction coincides.) -/
def remove_file (files : List OpenedFile) (ix : Nat) : List OpenedFile × Option OpenedFile :=
  (files.take ix ++ (files.drop (ix + 1)).map (fun f => { f with index := f.index - 1 }),
   files.get? ix)

/-! ## Background I/O workers (`multi.rs`)

A worker performs one blocking I/O operation whose outcome is abstracted by
`ReadOutcome`/`WriteOutcome`, then sends result actions back on the channel.
The embedding returns the exact list of actions the worker body sends.
`is_absolute` of a Unix path is `starts_with "/"`. -/

def isAbsolute (path : String) : Bool :=
  strStartsWith path "/"

/-- Outcome of `File::open` + `read_to_string` in `spawn_open_file`.
`readErr e buf` is a failing `read_to_string` (e.g. invalid UTF-8) that
leaves `buf` in the content buffer — the source keeps executing with that
buffer after sending the error. -/
inductive ReadOutcome where
  | openErr (e : String)
  | readErr (e : String) (buf : String)
  | ok (content : String)
deriving DecidableEq

/-- Outcome of the filesystem checks and `File::create` + `write_all` in
`spawn_save_file`. -/
inductive WriteOutcome where
  | isDir
  | createErr (e : String)
  | writeErr (e : String)
  | ok
deriving DecidableEq

/-- The actions sent by the thread body of `spawn_open_file(send, path,
n_files)` given the I/O outcome.  Faithful to the source: a non-absolute path
sends a `SaveError`; a failing `read_to_string` sends an `OpenError` and then
falls through (there is no early return on that branch), so the size check
and the `OpenSuccess` send still run on the leftover buffer.  String length
stands for Rust's byte length. -/
def spawn_open_file (path : String) (nFiles : Nat) (o : ReadOutcome) :
    List MultiArchiverAction :=
  if !isAbsolute path then [.SaveError "Using non-absolute path"]
  else
    match o with
    | .openErr e => [.OpenError e]
    | .readErr e buf =>
      .OpenError e ::
        (if buf.length > MAX_FILE_SIZE then [.OpenError "File extrapolates maximum size"]
         else [.OpenSuccess ⟨path, some path, some buf, true, some (), nFiles⟩])
    | .ok content =>
      if content.length > MAX_FILE_SIZE then [.OpenError "File extrapolates maximum size"]
      else [.OpenSuccess ⟨path, some path, some content, true, some (), nFiles⟩]

/-- The actions sent by the thread body of `spawn_save_file(path, index,
content, send)` given the I/O outcome. -/
def spawn_save_file (path : String) (index : Nat) (_content : String) (o : WriteOutcome) :
    List MultiArchiverAction :=
  if !isAbsolute path then [.SaveError "Using non-absolute path"]
  else
    match o with
    | .isDir => [.SaveError "Tried to save file to directory path"]
    | .createErr e => [.SaveError e]
    | .writeErr e => [.SaveError e]
    | .ok => [.SaveSuccess index path]

/-! ## The multi-engine consumer (`MultiArchiver::new`, `recv.attach` closure)

`multiStep ext buf s a` is one iteration of the consumer for action `a`:
`ext` is the `extension` argument of `MultiArchiver::new` and `buf` is the
synchronous `on_buffer_read_request` pull callback (the source unwraps the
callback's single bound handler; exactly one is assumed bound).  `none`
models a panic inside the iteration. -/

/-- `recent_files.iter().find(|f| &f.path.as_ref().unwrap()[..] == &tgt.unwrap()[..])`
scanning left to right; `some b` = scan finished with `b` telling whether a
match was found, `none` = an `unwrap` panicked during the scan (an entry
without a path, or a `none` target reached by the closure). -/
def recentFindByPath : List OpenedFile → Option String → Option Bool
  | [], _ => some false
  | f :: rest, tgt =>
    match f.path with
    | none => none
    | some q =>
      match tgt with
      | none => none
      | some p => if q == p then some true else recentFindByPath rest tgt

/-- Continuation of the `OpenRequest` arm after the sandbox guard: duplicate
check (I5), capacity check (I2), then spawn `spawn_open_file` capturing
`files.len()`. -/
def openReqCont (s : MultiState) (path : String) : Option StepOut :=
  match s.files.find? (fun f => (f.path.map (fun p => p == path)).getD false) with
  | some alreadyOpened => some ⟨s, [.NReopen alreadyOpened], [], []⟩
  | none =>
    if s.files.length == 16 then
      some ⟨s, [], [.OpenError "File list limit reached"], []⟩
    else
      some ⟨s, [], [], [.openW path s.files.length]⟩

/-- The shared tail of both `SaveRequest` branches that hold a target path:
sandbox guard, then pull the buffer content and spawn `spawn_save_file`. -/
def saveReqGuarded (buf : Nat → String) (s : MultiState) (path : String) (ix : Nat) :
    Option StepOut :=
  match s.sandbox with
  | some pr =>
    if !strStartsWith path pr then
      some ⟨s, [], [.OpenError ("Cannot save file outside prefix " ++ pr)], []⟩
    else
      some ⟨s, [], [], [.saveW path ix (buf ix)]⟩
  | none => some ⟨s, [], [], [.saveW path ix (buf ix)]⟩

/-- One iteration of the multi-engine consumer loop. -/
def multiStep (ext : String) (buf : Nat → String) (s : MultiState) :
    MultiArchiverAction → Option StepOut
  | .NewRequest =>
    if s.files.length == 16 then
      some ⟨s, [], [.OpenError "Maximum number of files opened"], []⟩
    else
      match (s.files.filter (fun f => strStartsWith f.name "Untitled")).getLast? with
      | none =>
        let newFile : OpenedFile :=
          ⟨untitledName ext 1, none, none, true, some (), s.files.length⟩
        some ⟨{ s with files := s.files ++ [newFile] }, [.NNew newFile], [], []⟩
      | some lastUntitled =>
        match parseUntitled ext lastUntitled.name with
        | none => none
        | some n =>
          let newFile : OpenedFile :=
            ⟨untitledName ext (n + 1), none, none, true, some (), s.files.length⟩
          some ⟨{ s with files := s.files ++ [newFile] }, [.NNew newFile], [], []⟩
  | .Add file =>
    some ⟨{ s with recentFiles := s.recentFiles ++ [file] }, [.NAdded file], [], []⟩
  | .OpenRelativeRequest relPath =>
    match s.sandbox with
    | some pr =>
      some ⟨s, [], [.OpenRequest (if strStartsWith relPath "/" then relPath
                                  else pr ++ "/" ++ relPath)], []⟩
    | none => some ⟨s, [], [.OpenError "No path prefix set"], []⟩
  | .OpenRequest path =>
    match s.sandbox with
    | some pr =>
      if !strStartsWith path pr then
        some ⟨s, [], [.OpenError ("Cannot open file outside prefix " ++ pr)], []⟩
      else openReqCont s path
    | none => openReqCont s path
  | .CloseRequest ix force =>
    if s.files.length ≤ ix then some ⟨s, [], [], []⟩
    else
      match s.files.get? ix with
      | none => none
      | some fAtIx =>
        if force then
          match remove_file s.files ix with
          | (files', some closedFile) =>
            if closedFile.index ≠ ix then none
            else
              some ⟨{ s with files := files', lastClosedFile := some closedFile,
                             finalState := ⟨s.recentFiles, files'⟩ },
                    .NClosed closedFile files'.length ::
                      (if s.winCloseRequest then [.NWindowClose] else []),
                    [], []⟩
          | (_, none) => none
        else
          if fAtIx.saved then
            match remove_file s.files ix with
            | (files', some closedFile) =>
              if closedFile.index ≠ ix then none
              else
                some ⟨{ s with files := files', lastClosedFile := some closedFile,
                               finalState := ⟨s.recentFiles, files'⟩ },
                      [.NClosed closedFile files'.length], [], []⟩
            | (_, none) => none
          else
            some ⟨{ s with finalState := ⟨s.recentFiles, s.files⟩ },
                  [.NCloseConfirm fAtIx], [], []⟩
  | .SaveRequest optPath =>
    match s.selected with
    | none => none
    | some ix =>
      match optPath with
      | some path => saveReqGuarded buf s path ix
      | none =>
        match s.files.get? ix with
        | none => none
        | some f =>
          match f.path with
          | some path => saveReqGuarded buf s path ix
          | none => some ⟨s, [.NSaveUnknownPath f.name], [], []⟩
  | .SaveSuccess ix path =>
    if s.files.length ≤ ix then some ⟨s, [], [], []⟩
    else
      match s.files.get? ix with
      | none => none
      | some f =>
        if strStartsWith f.name "Untitled" then
          let updated : OpenedFile := { f with name := path, path := some path }
          match recentFindByPath s.recentFiles (some path) with
          | none => none
          | some true =>
            some ⟨{ s with files := s.files.set ix updated },
                  [.NNameChanged ix path], [.SetSaved ix true], []⟩
          | some false =>
            some ⟨{ s with files := s.files.set ix updated,
                           recentFiles := s.recentFiles ++ [updated] },
                  [.NNameChanged ix path], [.SetSaved ix true], []⟩
        else
          some ⟨s, [], [.SetSaved ix true], []⟩
  | .SaveError e => some ⟨s, [.NError e], [], []⟩
  | .SetSaved ix saved =>
    if s.files.length ≤ ix then some ⟨s, [], [], []⟩
    else
      if (s.lastClosedFile.map (fun f => f.index == ix)).getD false then
        some ⟨{ s with lastClosedFile := none }, [], [], []⟩
      else
        match s.files.get? ix with
        | none => none
        | some f =>
          if saved then
            some ⟨{ s with files := s.files.set ix { f with saved := true } },
                  [.NPersisted { f with saved := true }], [], []⟩
          else
            if f.saved then
              some ⟨{ s with files := s.files.set ix { f with saved := false } },
                    [.NChanged { f with saved := false }], [], []⟩
            else
              some ⟨s, [], [], []⟩
  | .OpenSuccess file =>
    match recentFindByPath s.recentFiles file.path with
    | none => none
    | some true =>
      some ⟨{ s with files := s.files ++ [file] },
            [.NOpened file], [.SetSaved file.index true], []⟩
    | some false =>
      some ⟨{ s with files := s.files ++ [file],
                     recentFiles := s.recentFiles ++ [file] },
            [.NOpened file], [.SetSaved file.index true], []⟩
  | .OpenError msg => some ⟨s, [.NError msg], [], []⟩
  | .SetPrefix optPath => some ⟨{ s with sandbox := optPath }, [], [], []⟩
  | .Select optIx =>
    match optIx with
    | some ix =>
      if s.files.length ≤ ix then some ⟨s, [], [], []⟩
      else some ⟨{ s with selected := some ix }, [.NSelected (s.files.get? ix)], [], []⟩
    | none => some ⟨{ s with selected := none }, [.NSelected none], [], []⟩
  | .WindowCloseRequest =>
    match s.files.find? (fun f => !f.saved) with
    | some f =>
      some ⟨{ s with winCloseRequest := true, finalState := ⟨s.recentFiles, s.files⟩ },
            [.NCloseConfirm f], [], []⟩
    | none =>
      some ⟨{ s with finalState := ⟨s.recentFiles, s.files⟩ }, [.NWindowClose], [], []⟩

/-- The state captured by the consumer closure at the start of
`MultiArchiver::new`: everything empty / `None` / `false`. -/
def MultiArchiver_new : MultiState :=
  ⟨[], [], none, false, none, none, ⟨[], []⟩⟩

/-- Run the consumer over a list of delivered actions (the serialized stream
the single consumer dequeues); stops with `none` if an iteration panics. -/
def multiRun (ext : String) (buf : Nat → String) :
    MultiState → List MultiArchiverAction → Option MultiState
  | s, [] => some s
  | s, a :: rest =>
    match multiStep ext buf s a with
    | none => none
    | some out => multiRun ext buf out.state rest

/-! ## Whole-system model (queue + in-flight workers)

The consumer's queue is multi-producer FIFO: request actions are sent by the
application (UI / startup code), result actions by the detached workers.  A
`SysState` keeps the engine state, the actions sent but not yet consumed
(`inbox`, in delivery order), and the in-flight open/save worker handles with
the data each captured at spawn time.  A `SysEvent` script resolves the
nondeterminism: when a producer sends, when a worker's blocking I/O finishes
(enqueuing that worker's result actions), and when the consumer dequeues.
`sysStep` returns `none` for a script that is not a legal behavior (sending a
worker-only action, consuming from an empty inbox, finishing an absent
worker) and for a consumer panic.  The source joins an in-flight worker of
the same kind before spawning a new one, so a spawn while a handle is still
live corresponds to scripts where the matching `Done` event comes first;
other scripts are rejected. -/

/-- The actions producers other than the consumer and the workers may send:
every request-side API action, `Add` (sent by `add_files` when the persisted
user state is loaded), and `SetSaved` (sent by the editor when a buffer is
cleared or edited). -/
def userSendable : MultiArchiverAction → Bool
  | .OpenSuccess _ => false
  | .OpenError _ => false
  | .SaveSuccess _ _ => false
  | .SaveError _ => false
  | _ => true

structure SysState where
  eng : MultiState
  inbox : List MultiArchiverAction
  openH : Option (String × Nat)
  saveH : Option (String × Nat × String)
deriving DecidableEq

inductive SysEvent where
  | send (a : MultiArchiverAction)
  | consume
  | openDone (o : ReadOutcome)
  | saveDone (o : WriteOutcome)

/-- Record the workers spawned by one consumer iteration into the handles
(rejecting scripts that spawn over a live handle — the source joins the old
worker first, which is the matching `Done` event). -/
def applySpawns : SysState → List SpawnedWorker → Option SysState
  | s, [] => some s
  | s, .openW p n :: rest =>
    match s.openH with
    | some _ => none
    | none => applySpawns { s with openH := some (p, n) } rest
  | s, .saveW p ix c :: rest =>
    match s.saveH with
    | some _ => none
    | none => applySpawns { s with saveH := some (p, ix, c) } rest

def sysStep (ext : String) (buf : Nat → String) (s : SysState) :
    SysEvent → Option SysState
  | .send a => if userSendable a then some { s with inbox := s.inbox ++ [a] } else none
  | .consume =>
    match s.inbox with
    | [] => none
    | a :: rest =>
      match multiStep ext buf s.eng a with
      | none => none
      | some out => applySpawns { s with eng := out.state, inbox := rest ++ out.sent } out.spawns
  | .openDone o =>
    match s.openH with
    | none => none
    | some (p, n) =>
      some { s with inbox := s.inbox ++ spawn_open_file p n o, openH := none }
  | .saveDone o =>
    match s.saveH with
    | none => none
    | some (p, ix, c) =>
      some { s with inbox := s.inbox ++ spawn_save_file p ix c o, saveH := none }

def sysInit : SysState :=
  ⟨MultiArchiver_new, [], none, none⟩

def sysRun (ext : String) (buf : Nat → String) :
    SysState → List SysEvent → Option SysState
  | s, [] => some s
  | s, e :: rest =>
    match sysStep ext buf s e with
    | none => none
    | some s' => sysRun ext buf s' rest

/-- Invariant I1 as a boolean: every registry entry's `index` field equals
its position. -/
def idxOkFrom : Nat → List OpenedFile → Bool
  | _, [] => true
  | i, f :: rest => f.index == i && idxOkFrom (i + 1) rest

def filesIndexOk (files : List OpenedFile) : Bool :=
  idxOkFrom 0 files

/-! ## Data model and consumer of the single-document engine (`single.rs`) -/

/-- `FileState` from `single.rs`. -/
inductive FileState where
  | New
  | Editing
  | Open
  | CloseWindow
deriving DecidableEq

/-- `CurrentFile` from `single.rs`; `last_saved = None` doubles as the dirty
flag, the `SystemTime` payload is modelled as `Unit`. -/
structure CurrentFile where
  last_saved : Option Unit
  path : Option String
  just_opened : Bool
deriving DecidableEq

/-- `CurrentFile::reset`. -/
def CurrentFile.reset (_c : CurrentFile) : CurrentFile :=
  ⟨some (), none, true⟩

/-- `CurrentFile::path_or_untitled`. -/
def CurrentFile.path_or_untitled (c : CurrentFile) : String :=
  c.path.getD "Untitled.tex"

/-- `SingleArchiverAction` from `single.rs`. -/
inductive SingleArchiverAction where
  | NewRequest (force : Bool)
  | SaveRequest (optPath : Option String)
  | SaveSuccess (path : String)
  | SaveError (msg : String)
  | FileChanged
  | OpenRequest (path : String)
  | OpenSuccess (path : String) (content : String)
  | OpenError (msg : String)
  | RequestShowOpen
  | FileCloseRequest
  | WindowCloseRequest
deriving DecidableEq

/-- Event-sink invocations of the single engine (`on_*` fields of
`SingleArchiver`). -/
inductive SingleNotif where
  | SNew
  | SOpened (path content : String)
  | SShowOpen
  | SChanged (path : Option String)
  | SSave (path : String)
  | SCloseConfirm (pathOrUntitled : String)
  | SWindowClose
  | SSaveUnknownPath (name : String)
  | SError (msg : String)
deriving DecidableEq

/-- Workers spawned by the single engine. -/
inductive SingleSpawn where
  | openS (path : String)
  | saveS (path : String) (content : String)
deriving DecidableEq

/-- The local state of the `recv.attach` closure in `SingleArchiver::new`:
the pending-confirmation tag and the current file record. -/
structure SingleState where
  file_state : FileState
  curr_file : CurrentFile
deriving DecidableEq

/-- One iteration of the single-engine consumer loop; `buf` is the
`on_buffer_read_request` pull (exactly one handler bound, as the source
asserts).  No arm of this consumer can panic, so the result is total. -/
def singleStep (buf : Unit → String) (s : SingleState) :
    SingleArchiverAction → SingleState × List SingleNotif × List SingleSpawn
  | .NewRequest force =>
    if !force && !s.curr_file.last_saved.isSome then
      ({ s with file_state := .New }, [.SCloseConfirm s.curr_file.path_or_untitled], [])
    else
      ({ s with curr_file := s.curr_file.reset }, [.SNew], [])
  | .SaveRequest optPath =>
    match optPath with
    | some path => (s, [], [.saveS path (buf ())])
    | none =>
      match s.curr_file.path with
      | some path => (s, [], [.saveS path (buf ())])
      | none => (s, [.SSaveUnknownPath ""], [])
  | .FileChanged =>
    let c1 := if s.curr_file.just_opened
              then { s.curr_file with just_opened := false } else s.curr_file
    if c1.last_saved.isSome then
      ({ s with curr_file := { c1 with last_saved := none } },
       [.SChanged c1.path], [])
    else
      ({ s with curr_file := c1 }, [], [])
  | .SaveSuccess path =>
    ({ s with curr_file := { s.curr_file with path := some path, last_saved := some () } },
     [.SSave path], [])
  | .SaveError msg => (s, [.SError msg], [])
  | .RequestShowOpen =>
    if s.curr_file.last_saved.isSome then (s, [.SShowOpen], [])
    else ({ s with file_state := .Open }, [.SCloseConfirm s.curr_file.path_or_untitled], [])
  | .OpenRequest path =>
    if s.curr_file.path == some path then (s, [], [])
    else (s, [], [.openS path])
  | .OpenSuccess path content =>
    ({ s with curr_file := ⟨some (), some path, true⟩ }, [.SOpened path content], [])
  | .OpenError msg => (s, [.SError msg], [])
  | .FileCloseRequest =>
    let c := s.curr_file.reset
    match s.file_state with
    | .New => ({ s with curr_file := { c with just_opened := true } }, [.SNew], [])
    | .Open => ({ s with curr_file := { c with just_opened := true } }, [.SShowOpen], [])
    | .CloseWindow => ({ s with curr_file := c }, [.SWindowClose], [])
    | .Editing => ({ s with curr_file := c }, [], [])
  | .WindowCloseRequest =>
    if !s.curr_file.last_saved.isSome then
      ({ s with file_state := .CloseWindow }, [.SCloseConfirm s.curr_file.path_or_untitled], [])
    else (s, [.SWindowClose], [])

/-- The closure state at the start of `SingleArchiver::new`: `file_state` is
`New` and `curr_file.reset()` has run. -/
def SingleArchiver_new : SingleState :=
  ⟨.New, ⟨some (), none, true⟩⟩

/-! ## Concrete fixtures and invariant predicates used by the theorems -/

/-- A buffer-read callback returning the empty buffer for every index. -/
def bufZero : Nat → String := fun _ => ""

/-- A buffer-read callback for the single engine. -/
def bufUnit : Unit → String := fun _ => ""

/-- Interleaved execution: open `/a` (worker captures `files.len() = 0`),
create a new untitled file while the read is in flight, then deliver the
worker's `OpenSuccess`. -/
def script1 : List SysEvent :=
  [.send (.OpenRequest "/a"), .consume, .send .NewRequest, .consume,
   .openDone (.ok "hi"), .consume]

/-- Interleaved execution reaching 17 registry entries: 15 untitled files,
an `OpenRequest` admitted at 15 open files, a 16th untitled file created
while the read is in flight, then the worker's `OpenSuccess`. -/
def script3 : List SysEvent :=
  (List.replicate 15 [SysEvent.send .NewRequest, SysEvent.consume]).flatten ++
  [.send (.OpenRequest "/p"), .consume, .send .NewRequest, .consume,
   .openDone (.ok "x"), .consume]

/-- A registry of 16 untitled files satisfying I1, for the admission checks. -/
def files16 : List OpenedFile :=
  (List.range 16).map (fun i => ⟨untitledName "txt" (i + 1), none, none, true, some (), i⟩)

def s16 : MultiState := ⟨files16, [], none, false, none, none, ⟨[], []⟩⟩

/-- A single already-saved file with a path, at index 0. -/
def fSaved : OpenedFile := ⟨"a.txt", some "/a.txt", none, true, none, 0⟩

/-- The same file dirty. -/
def fDirty : OpenedFile := ⟨"a.txt", some "/a.txt", none, false, none, 0⟩

def sSaved : MultiState := ⟨[fSaved], [], none, false, none, none, ⟨[], []⟩⟩

def sDirty : MultiState := ⟨[fDirty], [], none, false, none, none, ⟨[], []⟩⟩

/-- The paths of a list of registry entries, in order. -/
def pathsOf (l : List OpenedFile) : List (Option String) :=
  l.map OpenedFile.path

/-- Invariant on the `recent` list under which the dedup scans of
`OpenSuccess`/`SaveSuccess` neither panic nor insert a duplicate: every entry
has a path and no two entries share one. -/
def RecentInv (recent : List OpenedFile) : Prop :=
  (∀ f ∈ recent, f.path.isSome) ∧ (pathsOf recent).Nodup

/-- Result actions produced by the engine's own workers: an `OpenSuccess`
always carries a file with a path (`spawn_open_file` sets `path: Some`), and
any `SaveSuccess`. -/
def resultActionOk : MultiArchiverAction → Bool
  | .OpenSuccess f => f.path.isSome
  | .SaveSuccess _ _ => true
  | _ => false

/-- The registry entries whose display name still has the untitled
placeholder form. -/
def untitledFiles (files : List OpenedFile) : List OpenedFile :=
  files.filter (fun f => strStartsWith f.name "Untitled")

/-- The numbers carried by the untitled names in the registry, in registry
order. -/
def untitledNums (ext : String) (files : List OpenedFile) : List Nat :=
  (untitledFiles files).filterMap (fun f => parseUntitled ext f.name)

/-- The highest number among the existing untitled names (0 if none). -/
def maxUntitled (ext : String) (files : List OpenedFile) : Nat :=
  (untitledNums ext files).foldr max 0

/-- Well-formedness of the untitled names in a registry: every entry whose
name starts with `"Untitled"` parses to a number, and those numbers strictly
increase along the registry.  Reachable registries satisfy this: untitled
entries are created in increasing number order and files entering via
open/save carry absolute path names. -/
def UntitledWF (ext : String) (files : List OpenedFile) : Prop :=
  ∃ ks : List Nat,
    (untitledFiles files).map (fun f => parseUntitled ext f.name) = ks.map some ∧
    List.Chain' (· < ·) ks

/-- Registry used to witness the untitled-numbering claim. -/
def s7 : MultiState :=
  ⟨[⟨untitledName "txt" 1, none, none, true, some (), 0⟩,
    ⟨untitledName "txt" 3, none, none, true, some (), 1⟩],
   [], none, false, none, none, ⟨[], []⟩⟩

/-- State whose most recently closed file had index 0, with one file still
open at index 0. -/
def sStale : MultiState :=
  ⟨[fSaved], [], none, false, some ⟨"b.txt", some "/b.txt", none, true, none, 0⟩,
   none, ⟨[], []⟩⟩

/-- State with a sandbox set to `/home/u/proj` and one saved file under it
selected. -/
def sSandbox : MultiState :=
  ⟨[⟨"/home/u/proj/a.txt", some "/home/u/proj/a.txt", none, true, none, 0⟩],
   [], some 0, false, none, some "/home/u/proj", ⟨[], []⟩⟩

/-- Like `sSandbox`, but the selected file's stored path lies outside the
sandbox. -/
def sSandbox2 : MultiState :=
  ⟨[⟨"/tmp/a.txt", some "/tmp/a.txt", none, true, none, 0⟩],
   [], some 0, false, none, some "/home/u/proj", ⟨[], []⟩⟩

/-- A worker-produced file used to exercise the `recent` dedup scan. -/
def fW : OpenedFile := ⟨"/w", some "/w", some "hi", true, some (), 0⟩

/-- The engine state after delivering `OpenSuccess fW` twice from the start
state: the registry holds the file twice, `recent` holds it once. -/
def sW : MultiState := ⟨[fW, fW], [fW], none, false, none, none, ⟨[], []⟩⟩

/-! ## Claim theorems -/

/-- C1: the claim states that after every processed action `files[i].index = i`
for all `i`.  This execution refutes it on the code: with an open worker in
flight (spawned when the registry was empty, so it captured index 0), a
`NewRequest` is processed before the worker's `OpenSuccess`; the delivered
file is pushed verbatim, producing a registry whose indices are `[0, 0]` —
position 1 holds index 0.  Closing position 1 then fails the source's own
`assert!(closed_file.index == ix)` (modelled as the `none` panic). -/
theorem C1_index_invariant_violated :
    (sysRun "txt" bufZero sysInit script1).map
      (fun s => (filesIndexOk s.eng.files,
                 s.eng.files.map OpenedFile.index,
                 multiStep "txt" bufZero s.eng (.CloseRequest 1 true))) =
    some (false, [0, 0], none) := by decide

/-- C2: the claim states every open worker enqueues exactly one result,
`OpenSuccess` or `OpenError`.  Refuted on the code: when `read_to_string`
fails (e.g. a non-UTF-8 file) the worker sends `OpenError` and — the branch
has no early return — then also sends `OpenSuccess` built from the leftover
buffer: two results from one worker.  A non-absolute path moreover sends a
`SaveError`, which is neither of the two allowed results. -/
theorem C2_open_worker_double_result :
    (spawn_open_file "/f" 0 (.readErr "stream did not contain valid UTF-8" "") =
      [.OpenError "stream did not contain valid UTF-8",
       .OpenSuccess ⟨"/f", some "/f", some "", true, some (), 0⟩]) ∧
    (spawn_open_file "f" 0 (.ok "x") = [.SaveError "Using non-absolute path"]) := by
  decide

/-- C3: the claim states the registry never holds more than 16 files.
Refuted on the code: an `OpenRequest` admitted when 15 files are open spawns
a worker, a 16th file is created while the read is in flight, and the
worker's `OpenSuccess` is pushed with no capacity re-check — 17 entries.
The admission checks themselves behave as claimed at exactly 16 files: one
`OpenError` is enqueued (firing exactly one error notification when
processed) and the registry is untouched. -/
theorem C3_capacity_exceeded :
    ((sysRun "txt" bufZero sysInit script3).map (fun s => s.eng.files.length) =
      some 17) ∧
    (multiStep "txt" bufZero s16 .NewRequest =
      some ⟨s16, [], [.OpenError "Maximum number of files opened"], []⟩) ∧
    (multiStep "txt" bufZero s16 (.OpenRequest "/q") =
      some ⟨s16, [], [.OpenError "File list limit reached"], []⟩) ∧
    (multiStep "txt" bufZero s16 (.OpenError "File list limit reached") =
      some ⟨s16, [.NError "File list limit reached"], [], []⟩) := by
  decide

/-- C4: the claim states the first `FileChanged` after an open is swallowed.
Refuted on the code: the `just_opened` branch only clears the flag and falls
through (no `else`/return), so the very next `FileChanged` after
`OpenSuccess` still marks the file dirty (`last_saved = None`) and fires the
"changed" notification. -/
theorem C4_first_change_not_swallowed :
    singleStep bufUnit
        (singleStep bufUnit SingleArchiver_new (.OpenSuccess "/a" "x")).1
        .FileChanged =
      (⟨.New, ⟨none, some "/a", false⟩⟩, [.SChanged (some "/a")], []) := by decide

/-- C5 counterexample: `files[0]` is already saved, the last-closed guard is
inactive, yet delivering `SetSaved(0, true)` fires a "persisted"
notification — the code notifies unconditionally on the `true` branch, so
repeated `SetSaved(i, true)` is not idempotent in its notifications. -/
theorem C5_counterexample :
    fSaved.saved = true ∧
    multiStep "txt" bufZero sSaved (.SetSaved 0 true) =
      some ⟨sSaved, [.NPersisted fSaved], [], []⟩ := by decide

/-- C6 counterexample: two `Add` actions carrying the same path are both
appended — `Add` performs no dedup scan — so `recent` ends with two entries
whose path is `some "/a"`. -/
theorem C6_counterexample :
    (multiRun "txt" bufZero MultiArchiver_new
        [.Add ⟨"/a", some "/a", none, true, none, 0⟩,
         .Add ⟨"/a", some "/a", none, true, none, 0⟩]).map
      (fun s => pathsOf s.recentFiles) = some [some "/a", some "/a"] ∧
    ¬ ([some "/a", some "/a"] : List (Option String)).Nodup := by decide

/-- Claim C5 (amended): delivering `SetSaved(i, false)` to a valid index
whose file is already dirty fires no notification at all (the "changed"
notification is guarded by the previous `saved` flag) — but `SetSaved(i,
true)` on a valid, not-just-closed index fires a "persisted" notification
every time, even when the file was already saved. -/
theorem C5_amended_thm :
    (∀ ext buf s ix f, s.files[ix]? = some f → f.saved = false →
       (multiStep ext buf s (.SetSaved ix false)).map StepOut.notifs = some []) ∧
    (∀ ext buf s ix f, s.files[ix]? = some f → f.saved = true →
       (∀ g, s.lastClosedFile = some g → g.index ≠ ix) →
       multiStep ext buf s (.SetSaved ix true) =
         some ⟨{ s with files := s.files.set ix { f with saved := true } },
               [.NPersisted { f with saved := true }], [], []⟩) := by
  constructor
  · intro ext buf s ix f h1 h2
    have hlt : ix < s.files.length := (List.getElem?_eq_some_iff.mp h1).1
    simp [multiStep, Nat.not_le.mpr hlt, h1, h2]
    split <;> simp
  · intro ext buf s ix f h1 h2 h3
    have hlt : ix < s.files.length := (List.getElem?_eq_some_iff.mp h1).1
    have hguard : (s.lastClosedFile.map (fun g => g.index == ix)).getD false = false := by
      cases hc : s.lastClosedFile with
      | none => simp
      | some g =>
        simp
        exact h3 g hc
    simp [multiStep, Nat.not_le.mpr hlt, h1, h2, hguard]

theorem C5_amended_witness :
    ((multiStep "txt" bufZero sDirty (.SetSaved 0 false)).map StepOut.notifs =
      some []) ∧
    (multiStep "txt" bufZero sSaved (.SetSaved 0 true) =
      some ⟨{ sSaved with files := sSaved.files.set 0 { fSaved with saved := true } },
            [.NPersisted { fSaved with saved := true }], [], []⟩) :=
  ⟨C5_amended_thm.1 "txt" bufZero sDirty 0 fDirty (by decide) (by decide),
   C5_amended_thm.2 "txt" bufZero sSaved 0 fSaved (by decide) (by decide)
     (by intro g hg; simp [sSaved] at hg)⟩

/-- A path scanned for and not found by the dedup scan is not among the
paths of the scanned list. -/
theorem recentFindByPath_false_not_mem :
    ∀ (l : List OpenedFile) (p : String),
      recentFindByPath l (some p) = some false → some p ∉ pathsOf l := by
  intro l p
  induction l with
  | nil => intro _ h; simp [pathsOf] at h
  | cons f rest ih =>
    intro h
    simp only [recentFindByPath] at h
    cases hf : f.path with
    | none => simp only [hf] at h; cases h
    | some q =>
      simp only [hf] at h
      by_cases hq : (q == p) = true
      · rw [if_pos hq] at h; cases h
      · rw [if_neg hq] at h
        simp only [pathsOf, List.map_cons, List.mem_cons, hf]
        rintro (heq | hmem)
        · exact hq (by simpa using heq.symm)
        · exact ih h hmem

/-- One consumer iteration for a worker result action (`OpenSuccess` with a
path, or `SaveSuccess`) preserves the `recent` dedup invariant. -/
theorem multiStep_recentInv :
    ∀ ext buf s a out, resultActionOk a = true → multiStep ext buf s a = some out →
      RecentInv s.recentFiles → RecentInv out.state.recentFiles := by
  intro ext buf s a out hok hstep hinv
  cases a <;> simp [resultActionOk] at hok
  case OpenSuccess f =>
    cases hp : f.path with
    | none => rw [hp] at hok; cases hok
    | some p =>
      simp only [multiStep, hp] at hstep
      cases hr : recentFindByPath s.recentFiles (some p) with
      | none => simp only [hr] at hstep; cases hstep
      | some b =>
        simp only [hr] at hstep
        cases b with
        | true => cases hstep; exact hinv
        | false =>
          cases hstep
          constructor
          · intro g hg
            rcases List.mem_append.mp hg with hg | hg
            · exact hinv.1 g hg
            · simp at hg; subst hg; simp [hp]
          · simp only [pathsOf, List.map_append, List.map_cons, List.map_nil]
            rw [List.nodup_append]
            exact ⟨hinv.2, by simp, by
              intro x hx hx'
              simp [hp] at hx'
              subst hx'
              exact recentFindByPath_false_not_mem _ _ hr hx⟩
  case SaveSuccess ix q =>
    simp only [multiStep] at hstep
    by_cases hlen : s.files.length ≤ ix
    · rw [if_pos hlen] at hstep; cases hstep; exact hinv
    · rw [if_neg hlen] at hstep
      cases hget : s.files.get? ix with
      | none => simp only [hget] at hstep; cases hstep
      | some f =>
        simp only [hget] at hstep
        by_cases hunt : strStartsWith f.name "Untitled" = true
        · rw [if_pos hunt] at hstep
          cases hr : recentFindByPath s.recentFiles (some q) with
          | none => simp only [hr] at hstep; cases hstep
          | some b =>
            simp only [hr] at hstep
            cases b with
            | true => cases hstep; exact hinv
            | false =>
              cases hstep
              constructor
              · intro g hg
                rcases List.mem_append.mp hg with hg | hg
                · exact hinv.1 g hg
                · simp at hg; subst hg; simp
              · simp only [pathsOf, List.map_append, List.map_cons, List.map_nil]
                rw [List.nodup_append]
                exact ⟨hinv.2, by simp, by
                  intro x hx hx'
                  simp at hx'
                  subst hx'
                  exact recentFindByPath_false_not_mem _ _ hr hx⟩
        · rw [if_neg hunt] at hstep; cases hstep; exact hinv

/-- Claim C6 (amended): over sequences of worker result actions
(`OpenSuccess` carrying a path, `SaveSuccess`), `recent` stays free of
duplicate paths; `Add`, by contrast, appends with no dedup scan (see the
counterexample), so the claim holds only with `Add` excluded. -/
theorem C6_amended_thm :
    ∀ ext buf acts s s', acts.all resultActionOk = true →
      RecentInv s.recentFiles → multiRun ext buf s acts = some s' →
      RecentInv s'.recentFiles := by
  intro ext buf acts
  induction acts with
  | nil => intro s s' _ hinv hrun; cases hrun; exact hinv
  | cons a rest ih =>
    intro s s' hall hinv hrun
    simp only [List.all_cons, Bool.and_eq_true] at hall
    simp only [multiRun] at hrun
    cases hstep : multiStep ext buf s a with
    | none => rw [hstep] at hrun; cases hrun
    | some out =>
      rw [hstep] at hrun
      exact ih out.state s' hall.2 (multiStep_recentInv ext buf s a out hall.1 hstep hinv) hrun

theorem C6_amended_witness : RecentInv sW.recentFiles :=
  C6_amended_thm "txt" bufZero [.OpenSuccess fW, .OpenSuccess fW]
    MultiArchiver_new sW (by decide)
    (by exact ⟨fun f hf => by simp [MultiArchiver_new] at hf,
               by simp [MultiArchiver_new, pathsOf]⟩)
    (by decide)

/-- If a list of optional values is pointwise `some` of another list,
`filterMap` recovers that list. -/
theorem filterMap_eq_of_map_some {α β : Type} (g : α → Option β) :
    ∀ (l : List α) (ks : List β), l.map g = ks.map some → l.filterMap g = ks := by
  intro l
  induction l with
  | nil =>
    intro ks h
    cases ks with
    | nil => rfl
    | cons k kt => simp at h
  | cons a t ih =>
    intro ks h
    cases ks with
    | nil => simp at h
    | cons k kt =>
      simp only [List.map_cons, List.cons.injEq] at h
      simp [List.filterMap_cons, h.1, ih kt h.2]

/-- In a strictly increasing list the head is at most the last element. -/
theorem chain_lt_le_getLast :
    ∀ (k : Nat) (t : List Nat), List.Chain' (· < ·) (k :: t) →
      k ≤ ((k :: t).getLast?).getD 0 := by
  intro k t
  induction t generalizing k with
  | nil => intro _; simp
  | cons k2 t2 ih =>
    intro hch
    rw [List.chain'_cons] at hch
    have h2 := ih k2 hch.2
    rw [List.getLast?_cons_cons]
    exact le_trans (le_of_lt hch.1) h2

/-- In a strictly increasing list of naturals the maximum is the last
element. -/
theorem chain_lt_foldr_max :
    ∀ ks : List Nat, List.Chain' (· < ·) ks →
      ks.foldr max 0 = (ks.getLast?).getD 0 := by
  intro ks
  induction ks with
  | nil => intro _; rfl
  | cons k t ih =>
    intro hch
    cases t with
    | nil => simp
    | cons k2 t2 =>
      rw [List.chain'_cons] at hch
      have hrec := ih hch.2
      rw [List.getLast?_cons_cons, List.foldr_cons, hrec]
      exact Nat.max_eq_right
        (le_trans (le_of_lt hch.1) (chain_lt_le_getLast k2 t2 hch.2))

/-- Claim C7: on a registry with well-formed untitled names that is not at
capacity, `NewRequest` appends exactly one file named `"Untitled N.<ext>"`
with `path = None`, `saved = true`, `content = None` and `index` the old
registry length, where `N` is one plus the highest number among the existing
untitled names, and fires one "new" notification. -/
theorem C7_new_request_appends_next_untitled :
    ∀ ext buf s, UntitledWF ext s.files → s.files.length ≠ 16 →
    multiStep ext buf s .NewRequest =
      some ⟨{ s with files := s.files ++
               [⟨untitledName ext (maxUntitled ext s.files + 1), none, none, true,
                 some (), s.files.length⟩] },
            [.NNew ⟨untitledName ext (maxUntitled ext s.files + 1), none, none, true,
                    some (), s.files.length⟩],
            [], []⟩ := by
  intro ext buf s hwf h16
  obtain ⟨ks, hmap, hchain⟩ := hwf
  have hbeq : (s.files.length == 16) = false := by simpa using h16
  have hnums : untitledNums ext s.files = ks :=
    filterMap_eq_of_map_some _ _ ks hmap
  cases hlast : (untitledFiles s.files).getLast? with
  | none =>
    have hnil : untitledFiles s.files = [] := List.getLast?_eq_none_iff.mp hlast
    have hks : ks = [] := by
      rw [hnil] at hmap
      cases ks with
      | nil => rfl
      | cons k kt => simp at hmap
    have hmax : maxUntitled ext s.files = 0 := by
      rw [maxUntitled, hnums, hks]; rfl
    simp only [multiStep, hbeq, Bool.false_eq_true, if_false]
    rw [show (s.files.filter fun f => strStartsWith f.name "Untitled") =
          untitledFiles s.files from rfl, hlast, hmax]
  | some lastU =>
    have hlm : ((untitledFiles s.files).map
        (fun f => parseUntitled ext f.name)).getLast? =
        (ks.map some).getLast? := by rw [hmap]
    rw [List.getLast?_map, List.getLast?_map, hlast] at hlm
    cases hkl : ks.getLast? with
    | none => rw [hkl] at hlm; simp at hlm
    | some k =>
      rw [hkl] at hlm
      have hparse : parseUntitled ext lastU.name = some k := by
        simpa using hlm
      have hmax : maxUntitled ext s.files = k := by
        rw [maxUntitled, hnums, chain_lt_foldr_max ks hchain, hkl]; rfl
      simp only [multiStep, hbeq, Bool.false_eq_true, if_false]
      rw [show (s.files.filter fun f => strStartsWith f.name "Untitled") =
            untitledFiles s.files from rfl, hlast]
      simp only [hparse, hmax]

theorem C7_witness :
    multiStep "txt" bufZero s7 .NewRequest =
      some ⟨{ s7 with files := s7.files ++
               [⟨untitledName "txt" (maxUntitled "txt" s7.files + 1), none, none, true,
                 some (), s7.files.length⟩] },
            [.NNew ⟨untitledName "txt" (maxUntitled "txt" s7.files + 1), none, none,
                    true, some (), s7.files.length⟩],
            [], []⟩ :=
  C7_new_request_appends_next_untitled "txt" bufZero s7
    ⟨[1, 3], by decide, List.chain'_cons.mpr ⟨by omega, List.chain'_singleton 3⟩⟩
    (by decide)

/-- Claim C8: `CloseRequest`, `SaveSuccess`, `SetSaved` and `Select` carrying
an index at or past the registry length are dropped whole — no notification,
no state change, no panic — and a `SetSaved` whose index is the most recently
closed file's index is ignored (only the stale marker is cleared), firing
nothing. -/
theorem C8_invalid_index_dropped :
    (∀ ext buf s ix force, s.files.length ≤ ix →
       multiStep ext buf s (.CloseRequest ix force) = some ⟨s, [], [], []⟩) ∧
    (∀ ext buf s ix p, s.files.length ≤ ix →
       multiStep ext buf s (.SaveSuccess ix p) = some ⟨s, [], [], []⟩) ∧
    (∀ ext buf s ix b, s.files.length ≤ ix →
       multiStep ext buf s (.SetSaved ix b) = some ⟨s, [], [], []⟩) ∧
    (∀ ext buf s ix, s.files.length ≤ ix →
       multiStep ext buf s (.Select (some ix)) = some ⟨s, [], [], []⟩) ∧
    (∀ ext buf s ix b f, s.lastClosedFile = some f → f.index = ix →
       ix < s.files.length →
       multiStep ext buf s (.SetSaved ix b) =
         some ⟨{ s with lastClosedFile := none }, [], [], []⟩) := by
  refine ⟨?_, ?_, ?_, ?_, ?_⟩
  · intro ext buf s ix force h
    simp [multiStep, h]
  · intro ext buf s ix p h
    simp [multiStep, h]
  · intro ext buf s ix b h
    simp [multiStep, h]
  · intro ext buf s ix h
    simp [multiStep, h]
  · intro ext buf s ix b f h1 h2 h3
    simp [multiStep, Nat.not_le.mpr h3, h1, h2]

theorem C8_witness :
    (multiStep "txt" bufZero sSaved (.CloseRequest 5 true) = some ⟨sSaved, [], [], []⟩) ∧
    (multiStep "txt" bufZero sSaved (.SaveSuccess 5 "/x") = some ⟨sSaved, [], [], []⟩) ∧
    (multiStep "txt" bufZero sSaved (.SetSaved 5 false) = some ⟨sSaved, [], [], []⟩) ∧
    (multiStep "txt" bufZero sSaved (.Select (some 5)) = some ⟨sSaved, [], [], []⟩) ∧
    (multiStep "txt" bufZero sStale (.SetSaved 0 false) =
      some ⟨{ sStale with lastClosedFile := none }, [], [], []⟩) :=
  ⟨C8_invalid_index_dropped.1 "txt" bufZero sSaved 5 true (by decide),
   C8_invalid_index_dropped.2.1 "txt" bufZero sSaved 5 "/x" (by decide),
   C8_invalid_index_dropped.2.2.1 "txt" bufZero sSaved 5 false (by decide),
   C8_invalid_index_dropped.2.2.2.1 "txt" bufZero sSaved 5 (by decide),
   C8_invalid_index_dropped.2.2.2.2 "txt" bufZero sStale 0 false
     ⟨"b.txt", some "/b.txt", none, true, none, 0⟩ (by decide) (by decide) (by decide)⟩

/-- Claim C9: with a sandbox prefix set, an `OpenRequest` or `SaveRequest`
(explicit or stored target) whose path is not under the prefix enqueues
exactly one `OpenError` (which fires exactly one "error" notification when
processed), spawns no worker and leaves the state unchanged; a path under
the prefix proceeds to spawn the worker. -/
theorem C9_sandbox_guard :
    (∀ ext buf s pr path, s.sandbox = some pr → strStartsWith path pr = false →
       multiStep ext buf s (.OpenRequest path) =
         some ⟨s, [], [.OpenError ("Cannot open file outside prefix " ++ pr)], []⟩) ∧
    (∀ ext buf s pr path ix, s.sandbox = some pr → s.selected = some ix →
       strStartsWith path pr = false →
       multiStep ext buf s (.SaveRequest (some path)) =
         some ⟨s, [], [.OpenError ("Cannot save file outside prefix " ++ pr)], []⟩) ∧
    (∀ ext buf s pr path ix f, s.sandbox = some pr → s.selected = some ix →
       s.files[ix]? = some f → f.path = some path → strStartsWith path pr = false →
       multiStep ext buf s (.SaveRequest none) =
         some ⟨s, [], [.OpenError ("Cannot save file outside prefix " ++ pr)], []⟩) ∧
    (∀ ext buf s msg, multiStep ext buf s (.OpenError msg) =
       some ⟨s, [.NError msg], [], []⟩) ∧
    (∀ ext buf s pr path, s.sandbox = some pr → strStartsWith path pr = true →
       s.files.find? (fun f => (f.path.map (fun p => p == path)).getD false) = none →
       s.files.length ≠ 16 →
       multiStep ext buf s (.OpenRequest path) =
         some ⟨s, [], [], [.openW path s.files.length]⟩) ∧
    (∀ ext buf s pr path ix, s.sandbox = some pr → s.selected = some ix →
       strStartsWith path pr = true →
       multiStep ext buf s (.SaveRequest (some path)) =
         some ⟨s, [], [], [.saveW path ix (buf ix)]⟩) := by
  refine ⟨?_, ?_, ?_, ?_, ?_, ?_⟩
  · intro ext buf s pr path h1 h2
    simp [multiStep, h1, h2]
  · intro ext buf s pr path ix h1 h2 h3
    simp [multiStep, saveReqGuarded, h1, h2, h3]
  · intro ext buf s pr path ix f h1 h2 h3 h4 h5
    simp [multiStep, saveReqGuarded, h1, h2, h3, h4, h5]
  · intro ext buf s msg
    simp [multiStep]
  · intro ext buf s pr path h1 h2 h3 h4
    simp [multiStep, openReqCont, h1, h2, h3, h4]
  · intro ext buf s pr path ix h1 h2 h3
    simp [multiStep, saveReqGuarded, h1, h2, h3]

theorem C9_witness :
    (multiStep "txt" bufZero sSandbox (.OpenRequest "/etc/passwd") =
      some ⟨sSandbox, [],
            [.OpenError ("Cannot open file outside prefix " ++ "/home/u/proj")], []⟩) ∧
    (multiStep "txt" bufZero sSandbox (.SaveRequest (some "/etc/shadow")) =
      some ⟨sSandbox, [],
            [.OpenError ("Cannot save file outside prefix " ++ "/home/u/proj")], []⟩) ∧
    (multiStep "txt" bufZero sSandbox2 (.SaveRequest none) =
      some ⟨sSandbox2, [],
            [.OpenError ("Cannot save file outside prefix " ++ "/home/u/proj")], []⟩) ∧
    (multiStep "txt" bufZero sSandbox (.OpenError "boom") =
      some ⟨sSandbox, [.NError "boom"], [], []⟩) ∧
    (multiStep "txt" bufZero sSandbox (.OpenRequest "/home/u/proj/b.txt") =
      some ⟨sSandbox, [], [], [.openW "/home/u/proj/b.txt" sSandbox.files.length]⟩) ∧
    (multiStep "txt" bufZero sSandbox (.SaveRequest (some "/home/u/proj/c.txt")) =
      some ⟨sSandbox, [], [], [.saveW "/home/u/proj/c.txt" 0 (bufZero 0)]⟩) :=
  ⟨C9_sandbox_guard.1 "txt" bufZero sSandbox "/home/u/proj" "/etc/passwd"
     (by decide) (by decide),
   C9_sandbox_guard.2.1 "txt" bufZero sSandbox "/home/u/proj" "/etc/shadow" 0
     (by decide) (by decide) (by decide),
   C9_sandbox_guard.2.2.1 "txt" bufZero sSandbox2 "/home/u/proj" "/tmp/a.txt" 0
     ⟨"/tmp/a.txt", some "/tmp/a.txt", none, true, none, 0⟩
     (by decide) (by decide) (by decide) (by decide) (by decide),
   C9_sandbox_guard.2.2.2.1 "txt" bufZero sSandbox "boom",
   C9_sandbox_guard.2.2.2.2.1 "txt" bufZero sSandbox "/home/u/proj" "/home/u/proj/b.txt"
     (by decide) (by decide) (by decide) (by decide),
   C9_sandbox_guard.2.2.2.2.2 "txt" bufZero sSandbox "/home/u/proj" "/home/u/proj/c.txt" 0
     (by decide) (by decide) (by decide)⟩

/-- Claim C10: no branch of `CloseRequest` updates the selection, and a
`SaveRequest` with no explicit path indexes `files[selected]` unchecked:
after `NewRequest; Select 0; CloseRequest(0, force)` the registry is empty
while the selection is still `Some 0`, and the next `SaveRequest(None)`
panics with an out-of-range index (the `none` outcome) instead of being
logged and dropped. -/
theorem C10_stale_selection_panics :
    (∀ ext buf s ix force,
       Option.elim (multiStep ext buf s (.CloseRequest ix force)) True
         (fun out => out.state.selected = s.selected)) ∧
    ((multiRun "txt" bufZero MultiArchiver_new
        [.NewRequest, .Select (some 0), .CloseRequest 0 true]).map
        (fun s => (s.selected, s.files.length)) = some (some 0, 0)) ∧
    (multiRun "txt" bufZero MultiArchiver_new
        [.NewRequest, .Select (some 0), .CloseRequest 0 true, .SaveRequest none] =
      none) := by
  refine ⟨?_, by decide, by decide⟩
  intro ext buf s ix force
  cases h : multiStep ext buf s (.CloseRequest ix force) with
  | none => simp
  | some out =>
    simp only [Option.elim]
    simp only [multiStep] at h
    repeat' split at h
    all_goals first
      | (injection h with h; subst h; rfl)
      | (injection h)
